import Mathlib

/-!
Shallow embedding of the sqrt-price fixed-point arithmetic module
(src/sqrt_price_math.rs) and the tick crossing accessor (src/tick.rs).

Machine integers are modelled as Nat (for U256 and u128 values) and Int
(for i128 and I256 values).  The ethers U256 arithmetic operators panic
on overflow, underflow and division by zero, so every primitive that can
panic is modelled as returning a three-way result: a panic (abort, no
value reaches the caller), an error value (the Result Err channel), or a
success value (the Result Ok channel).
-/

set_option autoImplicit false

/-- Error enumeration of the crate.  The constructors used by
src/sqrt_price_math.rs appear in the sources; the constructors raised by
the multiply-divide primitive are modelled from the spec, section 7. -/
inductive UniswapV3Error where
  | SqrtPriceIsZero : UniswapV3Error
  | LiquidityIsZero : UniswapV3Error
  | ProductDivAmount : UniswapV3Error
  | DenominatorIsZero : UniswapV3Error
  | DenominatorIsLteProdOne : UniswapV3Error
  | ResultIsU256MAX : UniswapV3Error
  deriving DecidableEq

/-- Outcome of a Rust computation: a panic (abort), an Err, or an Ok. -/
inductive RResult (α : Type) where
  | panic : RResult α
  | err : UniswapV3Error → RResult α
  | ok : α → RResult α
  deriving DecidableEq

/-- Sequencing of fallible Rust computations: panics and Err values
propagate, Ok values feed the continuation (the Rust question-mark). -/
def RResult.bind {α β : Type} : RResult α → (α → RResult β) → RResult β
  | .panic, _ => .panic
  | .err e, _ => .err e
  | .ok v, f => f v

/-- True exactly when the outcome is an Err reported to the caller. -/
def RResult.isErr {α : Type} : RResult α → Bool
  | .err _ => true
  | _ => false

/-- True exactly when the outcome is an Ok value. -/
def RResult.isOk {α : Type} : RResult α → Bool
  | .ok _ => true
  | _ => false

/-- U256 addition: panics on overflow (ethers U256 Add). -/
def u256.add (a b : Nat) : RResult Nat :=
  if a + b < 2 ^ 256 then .ok (a + b) else .panic

/-- U256 subtraction: panics on underflow (ethers U256 Sub). -/
def u256.sub (a b : Nat) : RResult Nat :=
  if b ≤ a then .ok (a - b) else .panic

/-- U256 multiplication: panics on overflow (ethers U256 Mul). -/
def u256.mul (a b : Nat) : RResult Nat :=
  if a * b < 2 ^ 256 then .ok (a * b) else .panic

/-- U256 division: panics on a zero divisor (ethers U256 Div). -/
def u256.div (a b : Nat) : RResult Nat :=
  if b = 0 then .panic else .ok (a / b)

/-- U256 left shift by 96 bits: wrapping (ethers U256 Shl discards
overflowing bits). -/
def u256.shl96 (a : Nat) : Nat :=
  a * 2 ^ 96 % 2 ^ 256

/-- Conversion of an i128 value to U256 (ethers U256 From i128): panics
when the value is negative. -/
def u256.from_i128 (x : Int) : RResult Nat :=
  if x < 0 then .panic else .ok x.toNat

/-- Wrapping negation of an i128 value, the release-mode semantics of
the Rust expression negating a signed liquidity. -/
def i128.wrapping_neg (x : Int) : Int :=
  if (-x) % (2 : Int) ^ 128 < (2 : Int) ^ 127 then (-x) % (2 : Int) ^ 128
  else (-x) % (2 : Int) ^ 128 - (2 : Int) ^ 128

/-- Reinterpretation of a U256 bit pattern as a signed I256 value
(I256 from_raw). -/
def i256.from_raw (x : Nat) : Int :=
  if x < 2 ^ 255 then (x : Int) else (x : Int) - 2 ^ 256

/-- Modelled from the spec: the full_math mul_div helper is not under src/ (only
its callers are); spec section 4.1.  Computes floor of a times b over
the denominator on the full double-width product, failing on a zero
denominator and when the high word of the product is not strictly less
than the denominator. -/
def full_math.mul_div (a b denominator : Nat) : RResult Nat :=
  if denominator = 0 then .err UniswapV3Error.DenominatorIsZero
  else if denominator ≤ a * b / 2 ^ 256 then .err UniswapV3Error.DenominatorIsLteProdOne
  else .ok (a * b / denominator)

/-- Modelled from the spec: the full_math mul_div_rounding_up helper is not under
src/; spec section 4.1.  Rounds the floored quotient up on a nonzero
remainder, failing when the increment would leave the result width. -/
def full_math.mul_div_rounding_up (a b denominator : Nat) : RResult Nat :=
  RResult.bind (full_math.mul_div a b denominator) (fun q =>
    if a * b % denominator = 0 then .ok q
    else if q + 1 < 2 ^ 256 then .ok (q + 1)
    else .err UniswapV3Error.ResultIsU256MAX)

/-- Modelled from the spec: the unsafe_math div_rounding_up helper is not under
src/; spec section 4.2.  Ceiling division, the caller guarantees a
nonzero divisor. -/
def unsafe_math.div_rounding_up (a b : Nat) : Nat :=
  a / b + if a % b = 0 then 0 else 1

/-- get_next_sqrt_price_from_amount_0_rounding_up from
src/sqrt_price_math.rs, lines 52 to 89.  The fallback expression of the
add branch appears twice because Rust reaches it by falling through
from either failed guard. -/
def get_next_sqrt_price_from_amount_0_rounding_up
    (sqrt_price_x_96 liquidity amount : Nat) (add : Bool) : RResult Nat :=
  if amount = 0 then .ok sqrt_price_x_96
  else if add then
    RResult.bind (u256.mul amount sqrt_price_x_96) (fun product =>
      if product / amount = sqrt_price_x_96 then
        RResult.bind (u256.add (u256.shl96 liquidity) product) (fun denominator =>
          if u256.shl96 liquidity ≤ denominator then
            full_math.mul_div_rounding_up (u256.shl96 liquidity) sqrt_price_x_96 denominator
          else
            RResult.bind (u256.div (u256.shl96 liquidity) sqrt_price_x_96) (fun t =>
              RResult.bind (u256.add t amount) (fun d =>
                RResult.ok (unsafe_math.div_rounding_up (u256.shl96 liquidity) d))))
      else
        RResult.bind (u256.div (u256.shl96 liquidity) sqrt_price_x_96) (fun t =>
          RResult.bind (u256.add t amount) (fun d =>
            RResult.ok (unsafe_math.div_rounding_up (u256.shl96 liquidity) d))))
  else
    RResult.bind (u256.mul amount sqrt_price_x_96) (fun product =>
      if product / amount = sqrt_price_x_96 ∧ u256.shl96 liquidity > product then
        full_math.mul_div_rounding_up (u256.shl96 liquidity) sqrt_price_x_96
          (u256.shl96 liquidity - product)
      else .err UniswapV3Error.ProductDivAmount)

/-- get_next_sqrt_price_from_amount_1_rounding_down from
src/sqrt_price_math.rs, lines 92 to 123.  The hexadecimal constants of
the source are 2 to the 160 minus one and 2 to the 96. -/
def get_next_sqrt_price_from_amount_1_rounding_down
    (sqrt_price_x_96 liquidity amount : Nat) (add : Bool) : RResult Nat :=
  if add then
    RResult.bind
      (if amount ≤ 2 ^ 160 - 1 then u256.div (u256.shl96 amount) liquidity
       else full_math.mul_div amount (2 ^ 96) liquidity)
      (fun quotent => u256.add sqrt_price_x_96 quotent)
  else
    RResult.bind
      (if amount ≤ 2 ^ 160 - 1 then RResult.ok (unsafe_math.div_rounding_up (u256.shl96 amount) liquidity)
       else full_math.mul_div_rounding_up amount (2 ^ 96) liquidity)
      (fun quotent => u256.sub sqrt_price_x_96 quotent)

/-- get_next_sqrt_price_from_input from src/sqrt_price_math.rs, lines
12 to 29. -/
def get_next_sqrt_price_from_input
    (sqrt_price : Nat) (liquidity : Nat) (amount_in : Nat) (zero_for_one : Bool) :
    RResult Nat :=
  if sqrt_price = 0 then .err UniswapV3Error.SqrtPriceIsZero
  else if liquidity = 0 then .err UniswapV3Error.LiquidityIsZero
  else if zero_for_one then
    get_next_sqrt_price_from_amount_0_rounding_up sqrt_price liquidity amount_in true
  else
    get_next_sqrt_price_from_amount_1_rounding_down sqrt_price liquidity amount_in true

/-- get_next_sqrt_price_from_output from src/sqrt_price_math.rs, lines
32 to 49. -/
def get_next_sqrt_price_from_output
    (sqrt_price : Nat) (liquidity : Nat) (amount_out : Nat) (zero_for_one : Bool) :
    RResult Nat :=
  if sqrt_price = 0 then .err UniswapV3Error.SqrtPriceIsZero
  else if liquidity = 0 then .err UniswapV3Error.LiquidityIsZero
  else if zero_for_one then
    get_next_sqrt_price_from_amount_1_rounding_down sqrt_price liquidity amount_out false
  else
    get_next_sqrt_price_from_amount_0_rounding_up sqrt_price liquidity amount_out false

/-- Body of _get_amount_0_delta after the boundary ordering, with a the
larger and b the smaller boundary; src/sqrt_price_math.rs lines 138 to
150.  The liquidity conversion to U256 happens before the zero check,
as in the source. -/
def _get_amount_0_delta_go (a b : Nat) (liquidity : Int) (round_up : Bool) : RResult Nat :=
  RResult.bind (u256.from_i128 liquidity) (fun liq =>
    if a = 0 then .err UniswapV3Error.SqrtPriceIsZero
    else if round_up then
      RResult.bind (full_math.mul_div_rounding_up (u256.shl96 liq) (a - b) b) (fun num_p =>
        RResult.ok (unsafe_math.div_rounding_up num_p a))
    else
      RResult.bind (full_math.mul_div (u256.shl96 liq) (a - b) b) (fun q =>
        RResult.ok (q / a)))

/-- _get_amount_0_delta from src/sqrt_price_math.rs, lines 126 to 151:
orders the boundaries so the first argument of the body is the larger
one, then runs the body. -/
def _get_amount_0_delta (sqrt_ratio_a_x_96 sqrt_ratio_b_x_96 : Nat)
    (liquidity : Int) (round_up : Bool) : RResult Nat :=
  if sqrt_ratio_a_x_96 > sqrt_ratio_b_x_96 then
    _get_amount_0_delta_go sqrt_ratio_a_x_96 sqrt_ratio_b_x_96 liquidity round_up
  else
    _get_amount_0_delta_go sqrt_ratio_b_x_96 sqrt_ratio_a_x_96 liquidity round_up

/-- Body of _get_amount_1_delta after the boundary ordering, with a the
larger and b the smaller boundary; src/sqrt_price_math.rs lines 166 to
178.  The source subtracts the larger boundary from the smaller one
(b minus a after its swap), which underflows whenever they differ. -/
def _get_amount_1_delta_go (a b : Nat) (liquidity : Int) (round_up : Bool) : RResult Nat :=
  RResult.bind (u256.from_i128 liquidity) (fun liq =>
    RResult.bind (u256.sub b a) (fun diff =>
      if round_up then full_math.mul_div_rounding_up liq diff (2 ^ 96)
      else full_math.mul_div liq diff (2 ^ 96)))

/-- _get_amount_1_delta from src/sqrt_price_math.rs, lines 154 to 179. -/
def _get_amount_1_delta (sqrt_ratio_a_x_96 sqrt_ratio_b_x_96 : Nat)
    (liquidity : Int) (round_up : Bool) : RResult Nat :=
  if sqrt_ratio_a_x_96 > sqrt_ratio_b_x_96 then
    _get_amount_1_delta_go sqrt_ratio_a_x_96 sqrt_ratio_b_x_96 liquidity round_up
  else
    _get_amount_1_delta_go sqrt_ratio_b_x_96 sqrt_ratio_a_x_96 liquidity round_up

/-- get_amount_0_delta from src/sqrt_price_math.rs, lines 181 to 201.
The negative branch passes the wrapped negation of the liquidity and
reinterprets the unsigned delta as I256 without negating it. -/
def get_amount_0_delta (sqrt_ratio_a_x_96 sqrt_ratio_b_x_96 : Nat)
    (liquidity : Int) : RResult Int :=
  if liquidity < 0 then
    RResult.bind
      (_get_amount_0_delta sqrt_ratio_b_x_96 sqrt_ratio_a_x_96
        (i128.wrapping_neg liquidity) false)
      (fun d => RResult.ok (i256.from_raw d))
  else
    RResult.bind
      (_get_amount_0_delta sqrt_ratio_a_x_96 sqrt_ratio_b_x_96 liquidity true)
      (fun d => RResult.ok (i256.from_raw d))

/-- get_amount_1_delta from src/sqrt_price_math.rs, lines 203 to 223. -/
def get_amount_1_delta (sqrt_ratio_a_x_96 sqrt_ratio_b_x_96 : Nat)
    (liquidity : Int) : RResult Int :=
  if liquidity < 0 then
    RResult.bind
      (_get_amount_1_delta sqrt_ratio_b_x_96 sqrt_ratio_a_x_96
        (i128.wrapping_neg liquidity) false)
      (fun d => RResult.ok (i256.from_raw d))
  else
    RResult.bind
      (_get_amount_1_delta sqrt_ratio_a_x_96 sqrt_ratio_b_x_96 liquidity true)
      (fun d => RResult.ok (i256.from_raw d))

/-- The per-tick accounting record of src/tick.rs, lines 5 to 14. -/
structure Tick where
  liquidity_gross : Nat
  liquidity_net : Int
  fee_growth_outside_0_x_128 : Nat
  fee_growth_outside_1_x_128 : Nat
  tick_cumulative_outside : Nat
  seconds_per_liquidity_outside_x_128 : Nat
  seconds_outside : Nat
  initialized : Bool
  deriving DecidableEq

/-- The tick mapping, a finite map from tick indices to Tick records,
modelled as an association list with unique keys. -/
abbrev TickMapping := List (Int × Tick)

/-- Lookup in the tick mapping (the HashMap get of the source). -/
def TickMapping.get : TickMapping → Int → Option Tick
  | [], _ => none
  | (k, t) :: rest, key => if k = key then some t else TickMapping.get rest key

/-- cross from src/tick.rs, lines 16 to 22. -/
def cross (tick_mapping : TickMapping) (tick : Int) : Int :=
  match TickMapping.get tick_mapping tick with
  | some t => t.liquidity_net
  | none => 0

/-- A sample tick record with net liquidity seven, used as a concrete
instance below. -/
def tick_example : Tick :=
  ⟨0, 7, 0, 0, 0, 0, 0, true⟩

set_option maxRecDepth 4000

lemma RResult.bind_ok {α β : Type} {x : RResult α} {f : α → RResult β} {r : β}
    (h : RResult.bind x f = RResult.ok r) :
    ∃ v, x = RResult.ok v ∧ f v = RResult.ok r := by
  cases x with
  | panic => exact RResult.noConfusion h
  | err e => exact RResult.noConfusion h
  | ok v => exact ⟨v, rfl, h⟩

lemma u256.mul_ok {a b r : Nat} (h : u256.mul a b = RResult.ok r) : r = a * b := by
  unfold u256.mul at h
  split at h
  · exact (RResult.ok.inj h).symm
  · exact RResult.noConfusion h

lemma u256.add_ok {a b r : Nat} (h : u256.add a b = RResult.ok r) : r = a + b := by
  unfold u256.add at h
  split at h
  · exact (RResult.ok.inj h).symm
  · exact RResult.noConfusion h

lemma u256.div_of_ne {a b : Nat} (hb : b ≠ 0) : u256.div a b = RResult.ok (a / b) := by
  unfold u256.div
  rw [if_neg hb]

lemma full_math.mul_div_ok {a b d q : Nat} (h : full_math.mul_div a b d = RResult.ok q) :
    d ≠ 0 ∧ q = a * b / d := by
  unfold full_math.mul_div at h
  split at h
  next => exact RResult.noConfusion h
  next hd =>
    split at h
    next => exact RResult.noConfusion h
    next => exact ⟨hd, (RResult.ok.inj h).symm⟩

lemma full_math.mul_div_rounding_up_ok {a b d q : Nat}
    (h : full_math.mul_div_rounding_up a b d = RResult.ok q) :
    d ≠ 0 ∧ q = unsafe_math.div_rounding_up (a * b) d := by
  unfold full_math.mul_div_rounding_up at h
  obtain ⟨v, hv, hf⟩ := RResult.bind_ok h
  obtain ⟨hd, hve⟩ := full_math.mul_div_ok hv
  refine ⟨hd, ?_⟩
  unfold unsafe_math.div_rounding_up
  split at hf
  next hrem =>
    rw [if_pos hrem, Nat.add_zero, ← (RResult.ok.inj hf), hve]
  next hrem =>
    rw [if_neg hrem]
    split at hf
    next => rw [← (RResult.ok.inj hf), hve]
    next => exact RResult.noConfusion hf

lemma full_math.mul_div_zero_denom (a b : Nat) :
    full_math.mul_div a b 0 = RResult.err UniswapV3Error.DenominatorIsZero := by
  unfold full_math.mul_div
  rw [if_pos rfl]

lemma full_math.mul_div_rounding_up_zero_denom (a b : Nat) :
    full_math.mul_div_rounding_up a b 0 = RResult.err UniswapV3Error.DenominatorIsZero := by
  unfold full_math.mul_div_rounding_up
  rw [full_math.mul_div_zero_denom]
  rfl

lemma unsafe_math.div_rounding_up_le_iff {n d k : Nat} (hd : 0 < d) :
    unsafe_math.div_rounding_up n d ≤ k ↔ n ≤ k * d := by
  unfold unsafe_math.div_rounding_up
  by_cases h : n % d = 0
  · rw [if_pos h, Nat.add_zero]
    constructor
    · intro hk
      calc n = n / d * d := (Nat.div_mul_cancel (Nat.dvd_of_mod_eq_zero h)).symm
        _ ≤ k * d := Nat.mul_le_mul hk le_rfl
    · intro hk
      have h3 : n / d ≤ k * d / d := Nat.div_le_div_right hk
      rwa [Nat.mul_div_cancel k hd] at h3
  · rw [if_neg h]
    have hne : n ≠ k * d := by
      intro he
      apply h
      rw [he, Nat.mul_mod_left]
    constructor
    · intro hk
      exact Nat.le_of_lt ((Nat.div_lt_iff_lt_mul hd).mp (Nat.lt_of_succ_le hk))
    · intro hk
      exact Nat.succ_le_of_lt ((Nat.div_lt_iff_lt_mul hd).mpr (lt_of_le_of_ne hk hne))

lemma unsafe_math.div_rounding_up_anti {n d1 d2 : Nat} (h1 : 0 < d1) (hd : d1 ≤ d2) :
    unsafe_math.div_rounding_up n d2 ≤ unsafe_math.div_rounding_up n d1 := by
  have h2 : 0 < d2 := Nat.lt_of_lt_of_le h1 hd
  rw [unsafe_math.div_rounding_up_le_iff h2]
  have hn : n ≤ unsafe_math.div_rounding_up n d1 * d1 :=
    (unsafe_math.div_rounding_up_le_iff h1).mp le_rfl
  exact le_trans hn (Nat.mul_le_mul le_rfl hd)

lemma amount0_zero_amount (p l : Nat) (add : Bool) :
    get_next_sqrt_price_from_amount_0_rounding_up p l 0 add = RResult.ok p := by
  unfold get_next_sqrt_price_from_amount_0_rounding_up
  rw [if_pos rfl]

lemma amount0_add_ok {p l A r : Nat} (hA : A ≠ 0)
    (h : get_next_sqrt_price_from_amount_0_rounding_up p l A true = RResult.ok r) :
    u256.shl96 l + A * p ≠ 0 ∧
      r = unsafe_math.div_rounding_up (u256.shl96 l * p) (u256.shl96 l + A * p) := by
  unfold get_next_sqrt_price_from_amount_0_rounding_up at h
  rw [if_neg hA, if_pos rfl] at h
  obtain ⟨product, hprod, h⟩ := RResult.bind_ok h
  have hpe := u256.mul_ok hprod
  subst hpe
  rw [if_pos (Nat.mul_div_cancel_left p (Nat.pos_of_ne_zero hA))] at h
  obtain ⟨denominator, hden, h⟩ := RResult.bind_ok h
  have hde := u256.add_ok hden
  subst hde
  rw [if_pos (Nat.le_add_right _ _)] at h
  exact full_math.mul_div_rounding_up_ok h

lemma amount1_add_ok {p l A r : Nat} (hl : l ≠ 0)
    (h : get_next_sqrt_price_from_amount_1_rounding_down p l A true = RResult.ok r) :
    r = p + A * 2 ^ 96 / l := by
  unfold get_next_sqrt_price_from_amount_1_rounding_down at h
  rw [if_pos rfl] at h
  obtain ⟨q, hq, hadd⟩ := RResult.bind_ok h
  have he := u256.add_ok hadd
  subst he
  by_cases hA : A ≤ 2 ^ 160 - 1
  · rw [if_pos hA, u256.div_of_ne hl] at hq
    have hshl : u256.shl96 A = A * 2 ^ 96 := by
      unfold u256.shl96
      apply Nat.mod_eq_of_lt
      calc A * 2 ^ 96 ≤ (2 ^ 160 - 1) * 2 ^ 96 := Nat.mul_le_mul hA le_rfl
        _ < 2 ^ 256 := by decide
    rw [hshl] at hq
    rw [RResult.ok.inj hq]
  · rw [if_neg hA] at hq
    obtain ⟨-, hqe⟩ := full_math.mul_div_ok hq
    rw [hqe]

lemma amount0_go_neg_liquidity (a b : Nat) {liquidity : Int} (h : liquidity < 0) (ru : Bool) :
    _get_amount_0_delta_go a b liquidity ru = RResult.panic := by
  unfold _get_amount_0_delta_go u256.from_i128
  rw [if_pos h]
  rfl

lemma amount1_go_neg_liquidity (a b : Nat) {liquidity : Int} (h : liquidity < 0) (ru : Bool) :
    _get_amount_1_delta_go a b liquidity ru = RResult.panic := by
  unfold _get_amount_1_delta_go u256.from_i128
  rw [if_pos h]
  rfl

lemma _get_amount_0_delta_neg (sa sb : Nat) {liquidity : Int} (h : liquidity < 0) (ru : Bool) :
    _get_amount_0_delta sa sb liquidity ru = RResult.panic := by
  unfold _get_amount_0_delta
  split
  · exact amount0_go_neg_liquidity _ _ h _
  · exact amount0_go_neg_liquidity _ _ h _

lemma _get_amount_1_delta_neg (sa sb : Nat) {liquidity : Int} (h : liquidity < 0) (ru : Bool) :
    _get_amount_1_delta sa sb liquidity ru = RResult.panic := by
  unfold _get_amount_1_delta
  split
  · exact amount1_go_neg_liquidity _ _ h _
  · exact amount1_go_neg_liquidity _ _ h _

lemma amount0_go_low_zero (a : Nat) {liquidity : Int} (h0 : 0 ≤ liquidity) (ru : Bool) :
    RResult.isErr (_get_amount_0_delta_go a 0 liquidity ru) = true := by
  unfold _get_amount_0_delta_go
  rw [show u256.from_i128 liquidity = RResult.ok liquidity.toNat from by
        unfold u256.from_i128
        rw [if_neg (not_lt.mpr h0)]]
  simp only [RResult.bind]
  by_cases ha : a = 0
  · rw [if_pos ha]
    rfl
  · rw [if_neg ha]
    cases ru
    · rw [if_neg Bool.false_ne_true, full_math.mul_div_zero_denom]
      rfl
    · rw [if_pos rfl, full_math.mul_div_rounding_up_zero_denom]
      rfl

/-- Claim C1, evidence of the code bug: at boundaries 2 to the 96 and
2 to the 98 with signed liquidity minus four, the wrapper computes the
magnitude delta three with boundaries swapped and round_up false, but
returns it without negation, so the result is the positive amount three
instead of the negative amount minus three whose sign would match the
sign of the liquidity. -/
theorem C1_get_amount_0_delta_missing_negation :
    get_amount_0_delta (2 ^ 96) (2 ^ 98) (-4) = RResult.ok 3 ∧
    get_amount_0_delta (2 ^ 96) (2 ^ 98) (-4) ≠ RResult.ok (-3) :=
  ⟨by decide, by decide⟩

/-- Claim C2, evidence of the code bug: after ordering the boundaries
the body subtracts the larger boundary from the smaller one, so with
distinct boundaries the U256 subtraction underflows and the call panics
for both round_up values instead of returning the claimed quotient
(here mulDivRoundingUp of one and 2 to the 96 over 2 to the 96, namely
one). -/
theorem C2_get_amount_1_delta_reversed_sub :
    _get_amount_1_delta (2 ^ 97) (2 ^ 96) 1 true = RResult.panic ∧
    _get_amount_1_delta (2 ^ 97) (2 ^ 96) 1 false = RResult.panic :=
  ⟨by decide, by decide⟩

/-- Claim C3, evidence of the code bug: with price one, liquidity one,
amount one and add false, the round-up quotient 2 to the 96 exceeds the
price, and the final U256 subtraction panics on underflow rather than
reporting an error to the caller. -/
theorem C3_amount_1_underflow_panics :
    get_next_sqrt_price_from_amount_1_rounding_down 1 1 1 false = RResult.panic ∧
    RResult.isErr (get_next_sqrt_price_from_amount_1_rounding_down 1 1 1 false) = false :=
  ⟨by decide, by decide⟩

/-- Claim C4, evidence of the code bug: with price 2 to the 128,
liquidity one, amount 2 to the 128 and add true, the product of amount
and price reaches 2 to the 256, the U256 multiplication panics, and the
overflow-avoiding fallback quotient (which would be the Ok value one)
is never produced. -/
theorem C4_amount_0_overflow_panics :
    get_next_sqrt_price_from_amount_0_rounding_up (2 ^ 128) 1 (2 ^ 128) true =
      RResult.panic ∧
    RResult.isOk (get_next_sqrt_price_from_amount_0_rounding_up (2 ^ 128) 1 (2 ^ 128) true)
      = false :=
  ⟨by decide, by decide⟩

/-- Claim C5: both top-level transition functions reject a zero price
with the zero-price error for all other arguments, reject zero
liquidity (with a nonzero price) with the zero-liquidity error, and
otherwise dispatch on zero_for_one to the amount-0 or amount-1 engine,
with add true for input and add false for output. -/
theorem C5_dispatch_validation (p l amt : Nat) (zfo : Bool) :
    (p = 0 →
      get_next_sqrt_price_from_input p l amt zfo = RResult.err UniswapV3Error.SqrtPriceIsZero ∧
      get_next_sqrt_price_from_output p l amt zfo = RResult.err UniswapV3Error.SqrtPriceIsZero) ∧
    (p ≠ 0 → l = 0 →
      get_next_sqrt_price_from_input p l amt zfo = RResult.err UniswapV3Error.LiquidityIsZero ∧
      get_next_sqrt_price_from_output p l amt zfo = RResult.err UniswapV3Error.LiquidityIsZero) ∧
    (p ≠ 0 → l ≠ 0 →
      get_next_sqrt_price_from_input p l amt zfo =
        (if zfo then get_next_sqrt_price_from_amount_0_rounding_up p l amt true
         else get_next_sqrt_price_from_amount_1_rounding_down p l amt true) ∧
      get_next_sqrt_price_from_output p l amt zfo =
        (if zfo then get_next_sqrt_price_from_amount_1_rounding_down p l amt false
         else get_next_sqrt_price_from_amount_0_rounding_up p l amt false)) := by
  refine ⟨?_, ?_, ?_⟩
  · intro hp
    subst hp
    exact ⟨rfl, rfl⟩
  · intro hp hl
    subst hl
    constructor
    · unfold get_next_sqrt_price_from_input
      rw [if_neg hp]
      rfl
    · unfold get_next_sqrt_price_from_output
      rw [if_neg hp]
      rfl
  · intro hp hl
    constructor
    · unfold get_next_sqrt_price_from_input
      rw [if_neg hp, if_neg hl]
    · unfold get_next_sqrt_price_from_output
      rw [if_neg hp, if_neg hl]

/-- Witness for claim C5: a zero price into either transition function
fails with the zero-price error. -/
theorem C5_dispatch_validation_witness :
    get_next_sqrt_price_from_input 0 7 5 false = RResult.err UniswapV3Error.SqrtPriceIsZero ∧
    get_next_sqrt_price_from_output 0 7 5 false = RResult.err UniswapV3Error.SqrtPriceIsZero :=
  (C5_dispatch_validation 0 7 5 false).1 rfl

/-- Claim C6: with a fixed nonzero price and nonzero liquidity, the
next price from input is monotone non-increasing in the input amount
when zero_for_one is true and monotone non-decreasing when
zero_for_one is false, over all pairs of amounts on which both calls
return Ok. -/
theorem C6_input_monotone (p l A1 A2 r1 r2 : Nat) (zfo : Bool)
    (hp : p ≠ 0) (hl : l ≠ 0)
    (h1 : get_next_sqrt_price_from_input p l A1 zfo = RResult.ok r1)
    (h2 : get_next_sqrt_price_from_input p l A2 zfo = RResult.ok r2)
    (hA : A1 ≤ A2) :
    (zfo = true → r2 ≤ r1) ∧ (zfo = false → r1 ≤ r2) := by
  unfold get_next_sqrt_price_from_input at h1 h2
  rw [if_neg hp, if_neg hl] at h1 h2
  cases zfo with
  | true =>
    refine ⟨fun _ => ?_, fun hc => Bool.noConfusion hc⟩
    rw [if_pos rfl] at h1 h2
    by_cases hA2 : A2 = 0
    · have hA1 : A1 = 0 := by omega
      rw [hA1, amount0_zero_amount] at h1
      rw [hA2, amount0_zero_amount] at h2
      rw [← RResult.ok.inj h1, ← RResult.ok.inj h2]
    · by_cases hA1 : A1 = 0
      · rw [hA1, amount0_zero_amount] at h1
        obtain ⟨hd2, hr2⟩ := amount0_add_ok hA2 h2
        rw [← RResult.ok.inj h1, hr2,
          unsafe_math.div_rounding_up_le_iff (Nat.pos_of_ne_zero hd2)]
        calc u256.shl96 l * p = p * u256.shl96 l := Nat.mul_comm _ _
          _ ≤ p * (u256.shl96 l + A2 * p) := Nat.mul_le_mul le_rfl (Nat.le_add_right _ _)
      · obtain ⟨hd1, hr1⟩ := amount0_add_ok hA1 h1
        obtain ⟨hd2, hr2⟩ := amount0_add_ok hA2 h2
        rw [hr1, hr2]
        exact unsafe_math.div_rounding_up_anti (Nat.pos_of_ne_zero hd1)
          (Nat.add_le_add_left (Nat.mul_le_mul hA le_rfl) _)
  | false =>
    refine ⟨fun hc => Bool.noConfusion hc, fun _ => ?_⟩
    rw [if_neg Bool.false_ne_true] at h1 h2
    rw [amount1_add_ok hl h1, amount1_add_ok hl h2]
    exact Nat.add_le_add_left (Nat.div_le_div_right (Nat.mul_le_mul hA le_rfl)) p

/-- Witness for claim C6 at concrete inputs: price 2 to the 96,
liquidity one, amounts one and two, direction zero_for_one. -/
theorem C6_input_monotone_witness :
    get_next_sqrt_price_from_input (2 ^ 96) 1 1 true =
      RResult.ok 39614081257132168796771975168 ∧
    get_next_sqrt_price_from_input (2 ^ 96) 1 2 true =
      RResult.ok 26409387504754779197847983446 ∧
    26409387504754779197847983446 ≤ 39614081257132168796771975168 := by
  refine ⟨by decide, by decide, ?_⟩
  exact (C6_input_monotone (2 ^ 96) 1 1 2 39614081257132168796771975168
    26409387504754779197847983446 true (by decide) (by decide) (by decide) (by decide)
    (by decide)).1 rfl

/-- Counterexample for claim C7: with the lower boundary zero and the
negative liquidity minus one, the internal delta function panics while
converting the liquidity to U256, so it does not return an error. -/
theorem C7_negative_liquidity_counterexample :
    _get_amount_0_delta (2 ^ 96) 0 (-1) true = RResult.panic ∧
    RResult.isErr (_get_amount_0_delta (2 ^ 96) 0 (-1) true) = false :=
  ⟨by decide, by decide⟩

/-- Claim C7 as amended: for every boundary pair whose lower boundary
after ordering is zero and every non-negative liquidity in the i128
range, _get_amount_0_delta returns an error for both round_up values
(for negative liquidity the call panics instead of returning an
error). -/
theorem C7_amount0_low_zero_errors (sa sb : Nat) (liquidity : Int) (ru : Bool)
    (h0 : 0 ≤ liquidity) (_h127 : liquidity < 2 ^ 127) (hmin : min sa sb = 0) :
    RResult.isErr (_get_amount_0_delta sa sb liquidity ru) = true := by
  unfold _get_amount_0_delta
  split
  next hgt =>
    have hb : sb = 0 := by omega
    rw [hb]
    exact amount0_go_low_zero sa h0 ru
  next hng =>
    have ha : sa = 0 := by omega
    rw [ha]
    exact amount0_go_low_zero sb h0 ru

/-- Witness for claim C7 as amended, at the boundary pair 2 to the 96
and zero with liquidity five. -/
theorem C7_amount0_low_zero_errors_witness :
    RResult.isErr (_get_amount_0_delta (2 ^ 96) 0 5 false) = true :=
  C7_amount0_low_zero_errors (2 ^ 96) 0 5 false (by decide) (by decide) (by decide)

/-- Claim C8: cross returns the stored liquidity_net of the tick when
the mapping holds an entry for the index, zero when it holds none, in
particular zero on the empty mapping; as a pure function it cannot
mutate the mapping. -/
theorem C8_cross_lookup (m : TickMapping) (k : Int) (t : Tick) :
    (TickMapping.get m k = some t → cross m k = t.liquidity_net) ∧
    (TickMapping.get m k = none → cross m k = 0) ∧
    cross ([] : TickMapping) k = 0 := by
  refine ⟨?_, ?_, rfl⟩
  · intro h
    unfold cross
    rw [h]
  · intro h
    unfold cross
    rw [h]

/-- Witness for claim C8: crossing an inserted tick with net liquidity
seven returns seven, and crossing the empty mapping returns zero. -/
theorem C8_cross_lookup_witness :
    cross [((5 : Int), tick_example)] 5 = 7 ∧ cross ([] : TickMapping) 3 = 0 :=
  ⟨(C8_cross_lookup [((5 : Int), tick_example)] 5 tick_example).1 rfl,
   (C8_cross_lookup ([] : TickMapping) 3 tick_example).2.2⟩

/-- Claim C9: a zero amount leaves the price unchanged for both values
of add, for every starting price and liquidity. -/
theorem C9_zero_amount_identity (p l : Nat) (add : Bool) :
    get_next_sqrt_price_from_amount_0_rounding_up p l 0 add = RResult.ok p :=
  amount0_zero_amount p l add

/-- Claim C10: with the most negative i128 liquidity, both signed
wrappers panic for every boundary pair: the wrapping negation leaves
the liquidity negative, and its conversion to U256 inside the internal
delta computation aborts before any value or error can be returned. -/
theorem C10_min_i128_liquidity_panics (sa sb : Nat) :
    get_amount_0_delta sa sb (-(2 ^ 127)) = RResult.panic ∧
    get_amount_1_delta sa sb (-(2 ^ 127)) = RResult.panic := by
  have hneg : i128.wrapping_neg (-(2 ^ 127)) < 0 := by decide
  constructor
  · unfold get_amount_0_delta
    rw [if_pos (show (-(2 ^ 127) : Int) < 0 by decide),
      _get_amount_0_delta_neg _ _ hneg _]
    rfl
  · unfold get_amount_1_delta
    rw [if_pos (show (-(2 ^ 127) : Int) < 0 by decide),
      _get_amount_1_delta_neg _ _ hneg _]
    rfl
